import Mathlib

/-!
Verification development for the two scripts of this repository:
route.py (demand aggregation, store selection, haversine distance matrix,
TSP visiting order, OSRM leg loop with CO2 emissions) and pred.py (the
generate_predictions pipeline with its real-data and mock branches).

Numeric conventions of the embedding: Python floats are modelled as exact
rationals (ℚ) where the code only does field arithmetic and comparisons,
and as real numbers (ℝ) where the code uses transcendental functions
(sin, cos, sqrt, arctan2 in the haversine computation). Dates handled via
the external datetime library are modelled by their proleptic Gregorian
ordinals (ℤ): datetime.timedelta(days=1) addition is +1 on ordinals and
date comparison is integer comparison.
-/

namespace Spec2Proof

/-- CONFIG constant from route.py: threshold = 10.0. -/
def threshold : ℚ := 10

/-- CONFIG constant from route.py: N = 5. -/
def N : ℕ := 5

/-- CONFIG constant from route.py: EMISSION_FACTOR_KG_PER_KM = 0.27. -/
def EMISSION_FACTOR_KG_PER_KM : ℚ := 27 / 100

/-- A row of predictions.csv as read by route.py. The prediction column is
named either "prediction" or "predicted_demand" in the source; both carry a
single numeric value per row, modelled by the field prediction. -/
structure PredRow where
  store_id : String
  id : String
  prediction : ℚ

/-- The predictions dataframe: its rows plus whether a store_id column is
present, which decides how route.py derives state_id. -/
structure PredFrame where
  hasStoreIdCol : Bool
  rows : List PredRow

/-- route.py line 31: state_id is the first two characters of store_id when
that column exists, else the fourth underscore-separated component of id. -/
def state_id (f : PredFrame) (r : PredRow) : String :=
  if f.hasStoreIdCol then r.store_id.take 2 else (r.id.splitOn "_").getD 3 ""

/-- route.py line 34: the groupby("state_id")[...].sum() aggregate for one
state: the sum of the prediction column over the rows of that state. -/
def stateDemand (f : PredFrame) (st : String) : ℚ :=
  ((f.rows.filter (fun r => state_id f r == st)).map PredRow.prediction).sum

/-- The distinct states occurring in the predictions frame (the group keys
of the pandas groupby; pandas sorts them, but only membership matters for
the isin filter downstream). -/
def statesPresent (f : PredFrame) : List String :=
  (f.rows.map (state_id f)).dedup

/-- route.py line 38: the states whose aggregated demand strictly exceeds
the threshold. -/
def selected_states (f : PredFrame) : List String :=
  (statesPresent f).filter (fun st => decide (threshold < stateDemand f st))

/-- A row of store_locations.csv. -/
structure Store where
  name : String
  state : String
  latitude : ℝ
  longitude : ℝ

/-- route.py lines 47-48: stores whose state is in selected_states, then
head(N). -/
def routes_df (f : PredFrame) (stores : List Store) : List Store :=
  (stores.filter (fun s => decide (s.state ∈ selected_states f))).take N

/-- route.py lines 50-51: raise ValueError("No stores selected for routing")
when routes_df is empty, else continue with routes_df. -/
def routeSelect (f : PredFrame) (stores : List Store) : Except String (List Store) :=
  if (routes_df f stores).isEmpty then Except.error "No stores selected for routing"
  else Except.ok (routes_df f stores)

lemma mem_selected_states (f : PredFrame) (st : String) :
    st ∈ selected_states f ↔ threshold < stateDemand f st := by
  constructor
  · intro h
    have := List.of_mem_filter h
    simpa using this
  · intro h
    refine List.mem_filter.2 ⟨?_, by simpa using h⟩
    by_contra hst
    have hfil : f.rows.filter (fun r => state_id f r == st) = [] := by
      refine List.filter_eq_nil_iff.2 ?_
      intro r hr hbeq
      exact hst (List.mem_dedup.2 (List.mem_map.2 ⟨r, hr, by simpa using hbeq⟩))
    have : stateDemand f st = 0 := by
      simp [stateDemand, hfil]
    rw [this] at h
    exact absurd h (by norm_num [threshold])

/-- C1: route.py selects for routing exactly the stores whose state has
aggregated predicted demand strictly above the threshold 10.0 (per-row
prediction values summed per state), truncated to the first N = 5 such
stores in file order; and the script fails with ValueError ("No stores
selected for routing") exactly when no store qualifies, producing the
selected list otherwise. -/
theorem c1_store_selection (f : PredFrame) (stores : List Store) :
    routes_df f stores
      = (stores.filter (fun s => decide (threshold < stateDemand f s.state))).take N
    ∧ (routeSelect f stores = Except.error "No stores selected for routing"
        ↔ routes_df f stores = [])
    ∧ (routeSelect f stores = Except.ok (routes_df f stores)
        ↔ routes_df f stores ≠ []) := by
  have hfil : (stores.filter (fun s => decide (s.state ∈ selected_states f)))
      = stores.filter (fun s => decide (threshold < stateDemand f s.state)) := by
    apply List.filter_congr
    intro s _
    rw [decide_eq_decide]
    exact mem_selected_states f s.state
  refine ⟨by rw [routes_df, hfil], ?_, ?_⟩
  · rw [routeSelect]
    by_cases h : (routes_df f stores).isEmpty
    · simp [h, List.isEmpty_iff.1 h]
    · have := mt List.isEmpty_iff.2 (by simpa using h)
      simp [h, this]
  · rw [routeSelect]
    by_cases h : (routes_df f stores).isEmpty
    · simp [h, List.isEmpty_iff.1 h]
    · have := mt List.isEmpty_iff.2 (by simpa using h)
      simp [h, this]

/-- numpy.radians: degrees to radians. -/
noncomputable def radians (x : ℝ) : ℝ := x * Real.pi / 180

/-- numpy.arctan2 on real arguments (signed zeros do not exist in ℝ): the
angle of the point (x, y) in (-pi, pi]. Haversine only exercises the
quadrant where both arguments are nonnegative. -/
noncomputable def arctan2 (y x : ℝ) : ℝ :=
  if 0 < x then Real.arctan (y / x)
  else if x < 0 then
    (if 0 ≤ y then Real.arctan (y / x) + Real.pi else Real.arctan (y / x) - Real.pi)
  else
    (if 0 < y then Real.pi / 2 else if y < 0 then -(Real.pi / 2) else 0)

/-- route.py lines 56-63: the haversine great-circle distance with Earth
radius R = 6371.0 km, via the sin-squared / arctan2 formula. -/
noncomputable def haversine (lat1 lon1 lat2 lon2 : ℝ) : ℝ :=
  let R : ℝ := 6371
  let phi1 := radians lat1
  let phi2 := radians lat2
  let dphi := radians (lat2 - lat1)
  let dlambda := radians (lon2 - lon1)
  let a := Real.sin (dphi / 2) ^ 2
    + Real.cos phi1 * Real.cos phi2 * Real.sin (dlambda / 2) ^ 2
  R * 2 * arctan2 (Real.sqrt a) (Real.sqrt (1 - a))

lemma haversine_comm (lat1 lon1 lat2 lon2 : ℝ) :
    haversine lat1 lon1 lat2 lon2 = haversine lat2 lon2 lat1 lon1 := by
  have h1 : radians (lat1 - lat2) / 2 = -(radians (lat2 - lat1) / 2) := by
    unfold radians; ring
  have h2 : radians (lon1 - lon2) / 2 = -(radians (lon2 - lon1) / 2) := by
    unfold radians; ring
  have ha : Real.sin (radians (lat1 - lat2) / 2) ^ 2
      + Real.cos (radians lat2) * Real.cos (radians lat1)
        * Real.sin (radians (lon1 - lon2) / 2) ^ 2
      = Real.sin (radians (lat2 - lat1) / 2) ^ 2
      + Real.cos (radians lat1) * Real.cos (radians lat2)
        * Real.sin (radians (lon2 - lon1) / 2) ^ 2 := by
    rw [h1, h2, Real.sin_neg, Real.sin_neg]
    ring
  simp only [haversine]
  rw [ha]

lemma radians_zero : radians 0 = 0 := by
  unfold radians; ring

lemma arctan2_zero_one : arctan2 0 1 = 0 := by
  simp [arctan2, Real.arctan_zero]

lemma haversine_self (lat lon : ℝ) : haversine lat lon lat lon = 0 := by
  have hz : Real.sin (radians (lat - lat) / 2) ^ 2
      + Real.cos (radians lat) * Real.cos (radians lat)
        * Real.sin (radians (lon - lon) / 2) ^ 2 = 0 := by
    simp [sub_self, radians_zero]
  simp only [haversine, hz]
  rw [Real.sqrt_zero, sub_zero, Real.sqrt_one, arctan2_zero_one]
  ring

/-- One iteration of the outer iterrows loop of route.py lines 67-70: the
dictionary entries written while s1 is fixed and s2 ranges over the
selected stores. -/
noncomputable def distEntriesRow (s1 : Store) (l : List Store) :
    List ((String × String) × ℝ) :=
  l.map (fun s2 =>
    ((s1.name, s2.name), haversine s1.latitude s1.longitude s2.latitude s2.longitude))

/-- The full insertion-ordered entry list of the double loop, with the
outer and inner iteration lists kept separate for induction. -/
noncomputable def distEntriesGen (l1 l2 : List Store) : List ((String × String) × ℝ) :=
  l1.flatMap (fun s1 => distEntriesRow s1 l2)

/-- route.py lines 65-70: the insertion-ordered entries of the dist_matrix
dictionary (both loops range over routes_df). -/
noncomputable def distEntries (routes : List Store) : List ((String × String) × ℝ) :=
  distEntriesGen routes routes

/-- Lookup in an insertion-ordered entry list with Python dict overwrite
semantics: the value of the last entry bearing the given key. -/
def lastLookup : List ((String × String) × ℝ) → (String × String) → Option ℝ
  | [], _ => none
  | e :: rest, k =>
    match lastLookup rest k with
    | some w => some w
    | none => if e.1 = k then some e.2 else none

/-- The dist_matrix dictionary of route.py as a key-to-value map. -/
noncomputable def dist_matrix (routes : List Store) (k : String × String) : Option ℝ :=
  lastLookup (distEntries routes) k

/-- route.py lines 77-80: weights placed on the complete graph G: for
distinct node names i, j the edge weight is dist_matrix[(i, j)]; the
complete graph has no self loops. -/
noncomputable def edgeWeight (routes : List Store) (i j : String) : Option ℝ :=
  if i = j then none else dist_matrix routes (i, j)

/-- The store of a given name that wins under dict overwrite semantics:
the last store with that name in iteration order. -/
def lastNamed : List Store → String → Option Store
  | [], _ => none
  | s :: rest, n =>
    match lastNamed rest n with
    | some t => some t
    | none => if s.name = n then some s else none

lemma lastLookup_append (l1 l2 : List ((String × String) × ℝ)) (k : String × String) :
    lastLookup (l1 ++ l2) k =
      match lastLookup l2 k with
      | some w => some w
      | none => lastLookup l1 k := by
  induction l1 with
  | nil => cases h : lastLookup l2 k <;> simp [lastLookup, h]
  | cons e l1 ih =>
    cases h2 : lastLookup l2 k <;> cases h1 : lastLookup l1 k <;>
      simp [lastLookup, ih, h1, h2]

lemma lastLookup_row (s1 : Store) (l : List Store) (a b : String) :
    lastLookup (distEntriesRow s1 l) (a, b) =
      if s1.name = a then
        (lastNamed l b).map
          (fun t => haversine s1.latitude s1.longitude t.latitude t.longitude)
      else none := by
  induction l with
  | nil => simp [distEntriesRow, lastLookup, lastNamed]
  | cons s2 l ih =>
    have hstep : distEntriesRow s1 (s2 :: l)
        = ((s1.name, s2.name),
            haversine s1.latitude s1.longitude s2.latitude s2.longitude)
          :: distEntriesRow s1 l := rfl
    rw [hstep, lastLookup, ih]
    by_cases ha : s1.name = a
    · cases h : lastNamed l b with
      | some t => simp [lastNamed, ha, h]
      | none =>
        by_cases hb : s2.name = b <;>
          simp [lastNamed, ha, h, hb, Prod.ext_iff]
    · simp [lastNamed, ha, Prod.ext_iff]

lemma lastLookup_distEntriesGen (l1 l2 : List Store) (a b : String) :
    lastLookup (distEntriesGen l1 l2) (a, b) =
      match lastNamed l1 a, lastNamed l2 b with
      | some s, some t => some (haversine s.latitude s.longitude t.latitude t.longitude)
      | _, _ => none := by
  induction l1 with
  | nil => cases h : lastNamed l2 b <;> simp [distEntriesGen, lastLookup, lastNamed, h]
  | cons s1 l1 ih =>
    have hsplit : distEntriesGen (s1 :: l1) l2
        = distEntriesRow s1 l2 ++ distEntriesGen l1 l2 := by
      simp [distEntriesGen]
    rw [hsplit, lastLookup_append, ih, lastLookup_row]
    cases h1 : lastNamed l1 a with
    | some s =>
      cases h2 : lastNamed l2 b <;> simp [lastNamed, h1, h2]
    | none =>
      by_cases ha : s1.name = a
      · cases h2 : lastNamed l2 b <;> simp [lastNamed, h1, h2, ha]
      · cases h2 : lastNamed l2 b <;> simp [lastNamed, h1, h2, ha]

lemma dist_matrix_eq (routes : List Store) (a b : String) :
    dist_matrix routes (a, b) =
      match lastNamed routes a, lastNamed routes b with
      | some s, some t => some (haversine s.latitude s.longitude t.latitude t.longitude)
      | _, _ => none :=
  lastLookup_distEntriesGen routes routes a b

/-- C9: haversine is symmetric in its two coordinate pairs and vanishes
when both pairs coincide, and consequently the dist_matrix dictionary is
symmetric and carries only zero on its diagonal. -/
theorem c9_haversine_symmetric_zero_diagonal :
    (∀ lat1 lon1 lat2 lon2 : ℝ,
        haversine lat1 lon1 lat2 lon2 = haversine lat2 lon2 lat1 lon1)
    ∧ (∀ lat lon : ℝ, haversine lat lon lat lon = 0)
    ∧ (∀ (routes : List Store) (a b : String),
        dist_matrix routes (a, b) = dist_matrix routes (b, a))
    ∧ (∀ (routes : List Store) (a : String),
        dist_matrix routes (a, a) = none ∨ dist_matrix routes (a, a) = some 0) := by
  refine ⟨haversine_comm, haversine_self, ?_, ?_⟩
  · intro routes a b
    rw [dist_matrix_eq, dist_matrix_eq]
    cases lastNamed routes a <;> cases lastNamed routes b <;> simp [haversine_comm]
  · intro routes a
    rw [dist_matrix_eq]
    cases lastNamed routes a with
    | none => left; rfl
    | some s => right; simp [haversine_self]

lemma lastNamed_eq_none (l : List Store) (n : String) (h : n ∉ l.map Store.name) :
    lastNamed l n = none := by
  induction l with
  | nil => rfl
  | cons s rest ih =>
    rw [List.map_cons, List.mem_cons] at h
    push_neg at h
    have hne : s.name ≠ n := fun he => h.1 he.symm
    simp [lastNamed, ih h.2, hne]

lemma lastNamed_of_nodup (routes : List Store) (s : Store)
    (hnd : (routes.map Store.name).Nodup) (hs : s ∈ routes) :
    lastNamed routes s.name = some s := by
  induction routes with
  | nil => cases hs
  | cons t rest ih =>
    rw [List.map_cons, List.nodup_cons] at hnd
    rcases List.mem_cons.1 hs with rfl | hmem
    · have hnone : lastNamed rest s.name = none := lastNamed_eq_none rest s.name hnd.1
      simp [lastNamed, hnone]
    · simp [lastNamed, ih hnd.2 hmem]

/-- C2: for any two distinct selected stores (node names of the complete
graph being distinct), the weight placed on the edge joining them equals
the haversine great-circle distance between their coordinates. -/
theorem c2_edge_weight_is_haversine (routes : List Store) (s1 s2 : Store)
    (hnd : (routes.map Store.name).Nodup) (h1 : s1 ∈ routes) (h2 : s2 ∈ routes)
    (hne : s1.name ≠ s2.name) :
    edgeWeight routes s1.name s2.name
      = some (haversine s1.latitude s1.longitude s2.latitude s2.longitude) := by
  rw [edgeWeight, if_neg hne, dist_matrix_eq,
    lastNamed_of_nodup routes s1 hnd h1, lastNamed_of_nodup routes s2 hnd h2]

/-- Witness for C2 at a concrete two-store selection. -/
theorem c2_edge_weight_is_haversine_witness :
    ((([⟨"A", "CA", 34, -118⟩, ⟨"B", "TX", 29, -95⟩] : List Store).map Store.name).Nodup)
    ∧ edgeWeight [⟨"A", "CA", 34, -118⟩, ⟨"B", "TX", 29, -95⟩] "A" "B"
      = some (haversine 34 (-118) 29 (-95)) := by
  refine ⟨by decide, ?_⟩
  exact c2_edge_weight_is_haversine
    [⟨"A", "CA", 34, -118⟩, ⟨"B", "TX", 29, -95⟩]
    ⟨"A", "CA", 34, -118⟩ ⟨"B", "TX", 29, -95⟩
    (by decide)
    (List.mem_cons_self _ _)
    (List.mem_cons_of_mem _ (List.mem_cons_self _ _))
    (by decide)

/-- Modelled from the spec: networkx.approximation.traveling_salesman_problem
is an external library whose source is not part of this repository. The spec
says route.py "computes an approximate shortest visiting order among them"
through "a single library call to an approximate traveling-salesman
heuristic". The call, made with cycle=False, is modelled by the contract the
networkx documentation states for it: the returned visiting order is a list
of node names that visits (contains) every node of the graph it was handed,
and being an open order it is not required to return to its starting node,
so no closure condition is imposed on the list. -/
def nxTspOpenContract (nodes result : List String) : Prop :=
  ∀ n ∈ nodes, n ∈ result

/-- route.py lines 66 and 73-75: the nodes of the complete graph handed to
the solver are the names of the selected stores. -/
def store_names (routes : List Store) : List String :=
  routes.map Store.name

/-- route.py line 82: the visiting order is the value of the single solver
call on the graph whose node set is the selected store names. -/
def visitingOrder (solver : List String → List String) (routes : List Store) :
    List String :=
  solver (store_names routes)

/-- C3: under the modelled cycle=False contract of the networkx solver, the
visiting order produced by the single solver call includes every selected
store. -/
theorem c3_visiting_order_covers_stores (solver : List String → List String)
    (routes : List Store)
    (hc : nxTspOpenContract (store_names routes) (visitingOrder solver routes)) :
    ∀ s ∈ routes, s.name ∈ visitingOrder solver routes := by
  intro s hs
  exact hc s.name (List.mem_map_of_mem Store.name hs)

/-- Witness for C3 with the identity solver, which satisfies the contract
on a concrete two-store selection. -/
theorem c3_visiting_order_covers_stores_witness :
    nxTspOpenContract (store_names [⟨"P", "CA", 1, 2⟩, ⟨"Q", "TX", 3, 4⟩])
      (visitingOrder id [⟨"P", "CA", 1, 2⟩, ⟨"Q", "TX", 3, 4⟩])
    ∧ ∀ s ∈ [(⟨"P", "CA", 1, 2⟩ : Store), ⟨"Q", "TX", 3, 4⟩],
        s.name ∈ visitingOrder id [⟨"P", "CA", 1, 2⟩, ⟨"Q", "TX", 3, 4⟩] := by
  have hc : nxTspOpenContract (store_names [⟨"P", "CA", 1, 2⟩, ⟨"Q", "TX", 3, 4⟩])
      (visitingOrder id [⟨"P", "CA", 1, 2⟩, ⟨"Q", "TX", 3, 4⟩]) := fun _ hn => hn
  exact ⟨hc, c3_visiting_order_covers_stores id _ hc⟩

/-- One iteration of the OSRM loop of route.py lines 114-145. The response
of the external service for a leg is modelled as an Option: none when the
returned JSON has no "routes" key (the script prints an error and
continues), some d when it does, d being routes[0].distance in metres. The
accumulator is (total_distance_km, total_emissions_kg, polyline annotations
drawn so far), an annotation being the (distance_km, emission_kg) pair put
in the tooltip of the PolyLine. -/
def legStep (acc : ℚ × ℚ × List (ℚ × ℚ)) (resp : Option ℚ) : ℚ × ℚ × List (ℚ × ℚ) :=
  match resp with
  | none => acc
  | some distMeters =>
    let distance_km := distMeters / 1000
    let emission_kg := distance_km * EMISSION_FACTOR_KG_PER_KM
    (acc.1 + distance_km, acc.2.1 + emission_kg, acc.2.2 ++ [(distance_km, emission_kg)])

/-- route.py lines 111-145: the whole OSRM loop, starting from totals 0 and
no polylines. -/
def processLegs (resps : List (Option ℚ)) : ℚ × ℚ × List (ℚ × ℚ) :=
  resps.foldl legStep (0, 0, [])

/-- route.py line 114: the legs are the consecutive pairs of the visiting
order. -/
def legsOf (route : List String) : List (String × String) :=
  route.zip route.tail

/-- The per-leg responses of the external OSRM service, the service being
modelled as a function from a leg to its optional routes[0].distance. -/
def osrmResponses (osrm : String × String → Option ℚ) (route : List String) :
    List (Option ℚ) :=
  (legsOf route).map osrm

lemma processLegs_aux (resps : List (Option ℚ)) (acc : ℚ × ℚ × List (ℚ × ℚ)) :
    resps.foldl legStep acc
      = (acc.1 + (((resps.filterMap id).map (fun d => d / 1000)).sum),
         acc.2.1 + (((resps.filterMap id).map
           (fun d => d / 1000 * EMISSION_FACTOR_KG_PER_KM)).sum),
         acc.2.2 ++ (resps.filterMap id).map
           (fun d => (d / 1000, d / 1000 * EMISSION_FACTOR_KG_PER_KM))) := by
  induction resps generalizing acc with
  | nil => simp
  | cons r resps ih =>
    cases r with
    | none => simp [legStep, ih]
    | some d => simp [legStep, ih, add_assoc]

/-- C4: in the OSRM loop, the polyline annotations are exactly the legs
whose response contains "routes", each annotating the leg distance in km
paired with that distance times EMISSION_FACTOR_KG_PER_KM, and the summary
totals are the sums of the annotated distances and emissions over exactly
those successful legs. -/
theorem c4_emissions_and_totals (osrm : String × String → Option ℚ)
    (route : List String) :
    (processLegs (osrmResponses osrm route)).2.2
      = ((legsOf route).filterMap osrm).map
          (fun d => (d / 1000, d / 1000 * EMISSION_FACTOR_KG_PER_KM))
    ∧ (∀ p ∈ (processLegs (osrmResponses osrm route)).2.2,
        p.2 = p.1 * EMISSION_FACTOR_KG_PER_KM)
    ∧ (processLegs (osrmResponses osrm route)).1
        = (((processLegs (osrmResponses osrm route)).2.2).map Prod.fst).sum
    ∧ (processLegs (osrmResponses osrm route)).2.1
        = (((processLegs (osrmResponses osrm route)).2.2).map Prod.snd).sum := by
  have h := processLegs_aux (osrmResponses osrm route) (0, 0, [])
  have hfm : (osrmResponses osrm route).filterMap id = (legsOf route).filterMap osrm := by
    simp [osrmResponses, List.filterMap_map]
  rw [processLegs] at *
  rw [h, hfm]
  refine ⟨by simp, ?_, by simp [List.map_map]; rfl, by simp [List.map_map]; rfl⟩
  intro p hp
  simp only [zero_add, List.nil_append, List.mem_map] at hp
  rcases hp with ⟨d, _, rfl⟩
  rfl

/-- C5: a leg whose OSRM response lacks a "routes" key contributes nothing
to the totals or the drawn polylines, and the loop neither retries it nor
aborts: processing with the failed leg inserted anywhere gives exactly the
result of processing without it. -/
theorem c5_failed_leg_skipped (resps1 resps2 : List (Option ℚ)) :
    processLegs (resps1 ++ none :: resps2) = processLegs (resps1 ++ resps2) := by
  rw [processLegs, processLegs, List.foldl_append, List.foldl_append, List.foldl_cons]
  rfl

/-- Proleptic Gregorian ordinal (datetime.date.toordinal) of 2024-01-01,
the default start of the mock window in pred.py line 117. -/
def ord20240101 : ℤ := 738886

/-- Proleptic Gregorian ordinal of 2024-01-07, the default end of the mock
window in pred.py line 118. -/
def ord20240107 : ℤ := 738892

/-- Python round(x, 0): round half to even, modelled exactly on ℚ. -/
def pyRound (q : ℚ) : ℤ :=
  let f := ⌊q⌋
  let r := q - (f : ℚ)
  if r < 1 / 2 then f
  else if 1 / 2 < r then f + 1
  else if f % 2 = 0 then f else f + 1

/-- A row of m5_preprocessed_sample.csv, restricted to the columns pred.py
touches; date is none when the cell is NaN. The id column is present, as
the unconditional df[["id", ...]] selection of line 83 requires. -/
structure Row where
  id : String
  date : Option ℤ
  store_id : String
  cat_id : String

/-- The preprocessed dataframe: which of the touched columns exist, the
names of any further columns, and the rows. -/
structure DataFrame where
  hasDateCol : Bool
  hasSellPriceCol : Bool
  hasStoreIdCol : Bool
  hasCatIdCol : Bool
  otherCols : List String
  rows : List Row

/-- The file-system state generate_predictions runs against: whether
models/lgbm_model.txt and models/lightgbm_model.pkl exist, the parsed
content of models/feature_names.json when present, and the preprocessed
csv when present. -/
structure FS where
  lgbmModelExists : Bool
  joblibModelExists : Bool
  featureNames : Option (List String)
  dataFile : Option DataFrame

/-- One entry of the predictions list of the returned result, dates on the
ordinal model. -/
structure PredEntry where
  date : ℤ
  store_id : String
  cat_id : String
  prediction : ℚ
  confidence : ℚ

/-- The fields of the result dict that only success results carry. -/
structure SuccessPayload where
  predictions : List PredEntry
  total_predictions : ℕ
  features_used : List String

/-- The dict generate_predictions returns: status and message always, and
the success-only payload (none in an error result, whose dict has no
predictions key). -/
structure Result where
  status : String
  message : String
  payload : Option SuccessPayload

/-- pred.py line 43: default feature names when feature_names.json is
missing. -/
def defaultFeatureNames : List String := ["sell_price", "weekday", "month", "year"]

/-- pred.py lines 50-61: the columns of the dataframe after preprocessing:
weekday, month and year are created exactly when date exists, and
sell_price is created when absent, so it exists either way. -/
def columnsAfterPrep (df : DataFrame) : List String :=
  ["id"]
    ++ (if df.hasDateCol then ["date", "weekday", "month", "year"] else [])
    ++ ["sell_price"]
    ++ (if df.hasStoreIdCol then ["store_id"] else [])
    ++ (if df.hasCatIdCol then ["cat_id"] else [])
    ++ df.otherCols

/-- pred.py lines 63-67: the store filter, then the category filter, each
applied only when the argument is truthy and the column exists. -/
def filteredRows (df : DataFrame) (category store : Option String) : List Row :=
  let r1 := match store with
    | some s => if df.hasStoreIdCol then df.rows.filter (fun r => r.store_id == s) else df.rows
    | none => df.rows
  match category with
  | some c => if df.hasCatIdCol then r1.filter (fun r => r.cat_id == c) else r1
  | none => r1

/-- pred.py line 70: the features of feature_names that exist as dataframe
columns. -/
def availableFeatures (featureNames : List String) (df : DataFrame) : List String :=
  featureNames.filter (fun f => (columnsAfterPrep df).contains f)

/-- pred.py lines 87-98: one API-facing entry built from a predicted row.
rowPred models model.predict on the feature vector of the row (an external
model; the claims do not constrain its value), and noise models the
np.random.normal(0, 0.05) draw of the i-th entry. -/
def realEntry (df : DataFrame) (category store : Option String) (sd : Option ℤ)
    (rowPred : Row → ℚ) (noise : ℕ → ℚ) (p : ℕ × Row) : PredEntry :=
  { date := if df.hasDateCol then p.2.date.getD (sd.getD ord20240101) else sd.getD ord20240101
    store_id := store.getD (if df.hasStoreIdCol then p.2.store_id else "UNKNOWN")
    cat_id := category.getD (if df.hasCatIdCol then p.2.cat_id else "UNKNOWN")
    prediction := (pyRound (rowPred p.2) : ℚ)
    confidence := max (7 / 10) (85 / 100 + noise p.1) }

/-- pred.py lines 86-98: the entries built from the first 20 rows
(df.head(20)) of the predicted dataframe. -/
def realEntries (df : DataFrame) (category store : Option String) (sd : Option ℤ)
    (rowPred : Row → ℚ) (noise : ℕ → ℚ) (rows : List Row) : List PredEntry :=
  (rows.take 20).enum.map (realEntry df category store sd rowPred noise)

/-- pred.py lines 116-118: both dates default when either is missing. -/
def effectiveDates (sd ed : Option ℤ) : ℤ × ℤ :=
  match sd, ed with
  | some s, some e => (s, e)
  | _, _ => (ord20240101, ord20240107)

/-- pred.py lines 125-129: the while loop collecting one date per day from
start to end inclusive, on the ordinal model of dates (the loop translated
with a fuel argument; the fuel passed by dateRange covers the whole
range). -/
def dateRangeAux : ℕ → ℤ → ℤ → List ℤ
  | 0, _, _ => []
  | n + 1, cur, stop => if cur ≤ stop then cur :: dateRangeAux n (cur + 1) stop else []

/-- The date_range list of pred.py lines 125-129. -/
def dateRange (s e : ℤ) : List ℤ :=
  dateRangeAux (e + 1 - s).toNat s e

/-- pred.py lines 154-161: the category multiplier dict with default 1.0
(a missing category also gets the default). -/
def categoryMultiplier (category : Option String) : ℚ :=
  match category with
  | some "HOBBIES" => 12 / 10
  | some "HOUSEHOLD" => 9 / 10
  | some "FOODS" => 15 / 10
  | some "ELECTRONICS" => 8 / 10
  | some "CLOTHING" => 11 / 10
  | some "SPORTS" => 1
  | _ => 1

/-- pred.py lines 163-167: the store multiplier dict with default 1.0. -/
def storeMultiplier (store : Option String) : ℚ :=
  match store with
  | some "CA_1" => 13 / 10
  | some "CA_2" => 11 / 10
  | some "CA_3" => 9 / 10
  | some "TX_1" => 12 / 10
  | some "TX_2" => 1
  | some "TX_3" => 8 / 10
  | some "WI_1" => 9 / 10
  | some "WI_2" => 11 / 10
  | some "WI_3" => 1
  | _ => 1

/-- pred.py lines 133-181: one mock entry for the date at index p.1 of the
range. basePred models the model.predict value on the feature vector built
from the date (the np.random.uniform fallback of the inner try at lines
146-151 is absorbed into it, the claims not constraining the value); noise
models the np.random.normal(0, 0.05) draw. -/
def mockEntry (category store : Option String) (basePred : ℤ → ℚ) (noise : ℕ → ℚ)
    (p : ℕ × ℤ) : PredEntry :=
  { date := p.2
    store_id := store.getD "CA_1"
    cat_id := category.getD "HOBBIES"
    prediction := (pyRound (max 0 (basePred p.2 * categoryMultiplier category
      * storeMultiplier store)) : ℚ)
    confidence := max (7 / 10) (min (95 / 100) (85 / 100 + noise p.1)) }

/-- The mock predictions list, one entry per date of the range. -/
def mockEntries (category store : Option String) (basePred : ℤ → ℚ) (noise : ℕ → ℚ)
    (dates : List ℤ) : List PredEntry :=
  dates.enum.map (mockEntry category store basePred noise)

/-- pred.py lines 16-195: the body of the try block of generate_predictions.
An exception raised in the body is an Except.error carrying str(e). -/
def generatePredictionsBody (fs : FS) (category store : Option String)
    (sd ed : Option ℤ) (basePred : ℤ → ℚ) (rowPred : Row → ℚ) (noise : ℕ → ℚ) :
    Except String Result :=
  if fs.lgbmModelExists || fs.joblibModelExists then
    let feature_names := fs.featureNames.getD defaultFeatureNames
    match fs.dataFile with
    | some df =>
      let rows := filteredRows df category store
      let available := availableFeatures feature_names df
      if available.isEmpty then
        Except.error "No matching features found for prediction"
      else
        Except.ok
          { status := "success"
            message := "Predictions generated successfully"
            payload := some
              { predictions := realEntries df category store sd rowPred noise rows
                total_predictions := (realEntries df category store sd rowPred noise rows).length
                features_used := available } }
    | none =>
      let se := effectiveDates sd ed
      let entries := mockEntries category store basePred noise (dateRange se.1 se.2)
      Except.ok
        { status := "success"
          message := "Predictions generated successfully (using mock data)"
          payload := some
            { predictions := entries
              total_predictions := entries.length
              features_used := feature_names } }
  else
    Except.error "Trained model not found. Please train the model first."

/-- pred.py lines 16-203: generate_predictions with its catch-all except
(lines 197-203) turning any exception of the body into an error result
carrying no predictions. -/
def generate_predictions (fs : FS) (category store : Option String)
    (sd ed : Option ℤ) (basePred : ℤ → ℚ) (rowPred : Row → ℚ) (noise : ℕ → ℚ) :
    Result :=
  match generatePredictionsBody fs category store sd ed basePred rowPred noise with
  | Except.ok r => r
  | Except.error msg =>
    { status := "error"
      message := "Prediction generation failed: " ++ msg
      payload := none }

lemma dateRangeAux_eq (n : ℕ) (cur stop : ℤ) (h : (stop + 1 - cur).toNat ≤ n) :
    dateRangeAux n cur stop
      = (List.range (stop + 1 - cur).toNat).map (fun i : ℕ => cur + (i : ℤ)) := by
  induction n generalizing cur with
  | zero =>
    have h0 : (stop + 1 - cur).toNat = 0 := Nat.le_zero.1 h
    rw [h0]
    simp [dateRangeAux]
  | succ n ih =>
    by_cases hc : cur ≤ stop
    · have h1 : (stop + 1 - cur).toNat = (stop + 1 - (cur + 1)).toNat + 1 := by omega
      rw [dateRangeAux, if_pos hc, ih (cur + 1) (by omega), h1, List.range_succ_eq_map]
      simp only [List.map_cons, Nat.cast_zero, add_zero, List.map_map]
      congr 1
      apply List.map_congr_left
      intro i _
      simp only [Function.comp_apply, Nat.cast_succ]
      ring
    · have h0 : (stop + 1 - cur).toNat = 0 := by omega
      rw [dateRangeAux, if_neg hc, h0]
      simp

lemma dateRange_eq (s e : ℤ) :
    dateRange s e = (List.range (e + 1 - s).toNat).map (fun i : ℕ => s + (i : ℤ)) :=
  dateRangeAux_eq _ s e le_rfl

lemma mem_dateRange (s e d : ℤ) : d ∈ dateRange s e ↔ s ≤ d ∧ d ≤ e := by
  rw [dateRange_eq]
  simp only [List.mem_map, List.mem_range]
  constructor
  · rintro ⟨i, hi, rfl⟩
    omega
  · intro hd
    exact ⟨(d - s).toNat, by omega, by omega⟩

lemma dateRange_nodup (s e : ℤ) : (dateRange s e).Nodup := by
  rw [dateRange_eq]
  exact List.Nodup.map (fun a b h => by omega) (List.nodup_range _)

lemma pyRound_nonneg (q : ℚ) (h : 0 ≤ q) : 0 ≤ pyRound q := by
  have hf : (0 : ℤ) ≤ ⌊q⌋ := Int.floor_nonneg.2 h
  simp only [pyRound]
  split_ifs <;> omega

lemma mockEntries_map_date (category store : Option String) (basePred : ℤ → ℚ)
    (noise : ℕ → ℚ) (dates : List ℤ) :
    (mockEntries category store basePred noise dates).map PredEntry.date = dates := by
  rw [mockEntries, List.map_map]
  have hcomp : PredEntry.date ∘ mockEntry category store basePred noise
      = Prod.snd := rfl
  rw [hcomp, List.enum_map_snd]

/-- C6 counterexample: when no trained model file exists, absence of the
preprocessed data file does not make generate_predictions return a mock
success result: the result status is not "success". -/
theorem c6_counterexample :
    (FS.mk false false none none).dataFile = none
    ∧ (generate_predictions (FS.mk false false none none) none none none none
        (fun _ => 0) (fun _ => 0) (fun _ => 0)).status ≠ "success" := by
  exact ⟨rfl, by decide⟩

/-- C6 (amended): when the preprocessed data file does not exist and a
trained model file is present (so that model loading succeeds), the script
falls back to synthetic mock predictions: status "success", exactly one
entry per calendar day from start_date through end_date inclusive (both
defaulting to 2024-01-01 through 2024-01-07 when either date is missing),
each entry carrying the nonnegative rounded prediction value scaled by the
category- and store-specific multipliers. -/
theorem c6_mock_fallback (fs : FS) (category store : Option String)
    (sd ed : Option ℤ) (basePred : ℤ → ℚ) (rowPred : Row → ℚ) (noise : ℕ → ℚ)
    (hdata : fs.dataFile = none)
    (hmodel : fs.lgbmModelExists = true ∨ fs.joblibModelExists = true) :
    (generate_predictions fs category store sd ed basePred rowPred noise).status = "success"
    ∧ ∃ pl, (generate_predictions fs category store sd ed basePred rowPred noise).payload
        = some pl
      ∧ pl.predictions.map PredEntry.date
          = dateRange (effectiveDates sd ed).1 (effectiveDates sd ed).2
      ∧ (∀ d : ℤ, d ∈ dateRange (effectiveDates sd ed).1 (effectiveDates sd ed).2
          ↔ (effectiveDates sd ed).1 ≤ d ∧ d ≤ (effectiveDates sd ed).2)
      ∧ (dateRange (effectiveDates sd ed).1 (effectiveDates sd ed).2).Nodup
      ∧ pl.total_predictions = pl.predictions.length
      ∧ ∀ p ∈ pl.predictions,
          p.prediction = (pyRound (max 0 (basePred p.date * categoryMultiplier category
            * storeMultiplier store)) : ℚ)
          ∧ 0 ≤ p.prediction := by
  have hb : (fs.lgbmModelExists || fs.joblibModelExists) = true := by
    rcases hmodel with h | h <;> simp [h]
  have hres : generate_predictions fs category store sd ed basePred rowPred noise
      = { status := "success"
          message := "Predictions generated successfully (using mock data)"
          payload := some
            { predictions := mockEntries category store basePred noise
                (dateRange (effectiveDates sd ed).1 (effectiveDates sd ed).2)
              total_predictions := (mockEntries category store basePred noise
                (dateRange (effectiveDates sd ed).1 (effectiveDates sd ed).2)).length
              features_used := fs.featureNames.getD defaultFeatureNames } } := by
    simp [generate_predictions, generatePredictionsBody, hb, hdata]
  rw [hres]
  refine ⟨rfl, _, rfl, mockEntries_map_date _ _ _ _ _,
    fun d => mem_dateRange _ _ d, dateRange_nodup _ _, rfl, ?_⟩
  intro p hp
  rw [mockEntries, List.mem_map] at hp
  rcases hp with ⟨q, _, rfl⟩
  refine ⟨rfl, ?_⟩
  exact Int.cast_nonneg.2 (pyRound_nonneg _ (le_max_left 0 _))

/-- Witness for the amended C6 at a concrete file system with a model file
but no data file, with no explicit dates. -/
theorem c6_mock_fallback_witness :
    (FS.mk true false none none).dataFile = none
    ∧ ((FS.mk true false none none).lgbmModelExists = true
        ∨ (FS.mk true false none none).joblibModelExists = true)
    ∧ ((generate_predictions (FS.mk true false none none) none none none none
          (fun _ => 3) (fun _ => 0) (fun _ => 0)).status = "success"
      ∧ ∃ pl, (generate_predictions (FS.mk true false none none) none none none none
            (fun _ => 3) (fun _ => 0) (fun _ => 0)).payload = some pl
        ∧ pl.predictions.map PredEntry.date
            = dateRange (effectiveDates none none).1 (effectiveDates none none).2
        ∧ (∀ d : ℤ, d ∈ dateRange (effectiveDates none none).1 (effectiveDates none none).2
            ↔ (effectiveDates none none).1 ≤ d ∧ d ≤ (effectiveDates none none).2)
        ∧ (dateRange (effectiveDates none none).1 (effectiveDates none none).2).Nodup
        ∧ pl.total_predictions = pl.predictions.length
        ∧ ∀ p ∈ pl.predictions,
            p.prediction = (pyRound (max 0 ((fun _ : ℤ => (3 : ℚ)) p.date
              * categoryMultiplier none * storeMultiplier none)) : ℚ)
            ∧ 0 ≤ p.prediction) :=
  ⟨rfl, Or.inl rfl,
    c6_mock_fallback (FS.mk true false none none) none none none none
      (fun _ => 3) (fun _ => 0) (fun _ => 0) rfl (Or.inl rfl)⟩

/-- C7: when neither the LightGBM text model nor the joblib pickle exists,
generate_predictions produces no forecasts (its payload is none) and
reports an error whose message contains "Trained model not found". -/
theorem c7_model_required (fs : FS) (category store : Option String)
    (sd ed : Option ℤ) (basePred : ℤ → ℚ) (rowPred : Row → ℚ) (noise : ℕ → ℚ)
    (h1 : fs.lgbmModelExists = false) (h2 : fs.joblibModelExists = false) :
    (generate_predictions fs category store sd ed basePred rowPred noise).status = "error"
    ∧ (generate_predictions fs category store sd ed basePred rowPred noise).payload = none
    ∧ (generate_predictions fs category store sd ed basePred rowPred noise).message
        = "Prediction generation failed: Trained model not found. Please train the model first."
    ∧ ∃ pre suf : String,
        (generate_predictions fs category store sd ed basePred rowPred noise).message
          = pre ++ "Trained model not found" ++ suf := by
  have hb : (fs.lgbmModelExists || fs.joblibModelExists) = false := by
    simp [h1, h2]
  have hres : generate_predictions fs category store sd ed basePred rowPred noise
      = { status := "error"
          message := "Prediction generation failed: "
            ++ "Trained model not found. Please train the model first."
          payload := none } := by
    simp [generate_predictions, generatePredictionsBody, hb]
  rw [hres]
  exact ⟨rfl, rfl, by decide, "Prediction generation failed: ",
    ". Please train the model first.", by decide⟩

/-- Witness for C7 at a concrete file system with neither model file. -/
theorem c7_model_required_witness :
    (FS.mk false false none none).lgbmModelExists = false
    ∧ (FS.mk false false none none).joblibModelExists = false
    ∧ ((generate_predictions (FS.mk false false none none) none none none none
          (fun _ => 0) (fun _ => 0) (fun _ => 0)).status = "error"
      ∧ (generate_predictions (FS.mk false false none none) none none none none
          (fun _ => 0) (fun _ => 0) (fun _ => 0)).payload = none
      ∧ (generate_predictions (FS.mk false false none none) none none none none
          (fun _ => 0) (fun _ => 0) (fun _ => 0)).message
          = "Prediction generation failed: Trained model not found. Please train the model first."
      ∧ ∃ pre suf : String,
          (generate_predictions (FS.mk false false none none) none none none none
            (fun _ => 0) (fun _ => 0) (fun _ => 0)).message
            = pre ++ "Trained model not found" ++ suf) :=
  ⟨rfl, rfl,
    c7_model_required (FS.mk false false none none) none none none none
      (fun _ => 0) (fun _ => 0) (fun _ => 0) rfl rfl⟩

/-- C8: generate_predictions is total on its result dict: whatever the
inputs and file-system state, the catch-all except yields a result whose
status is either "success" or "error"; no exception escapes. -/
theorem c8_status_total (fs : FS) (category store : Option String)
    (sd ed : Option ℤ) (basePred : ℤ → ℚ) (rowPred : Row → ℚ) (noise : ℕ → ℚ) :
    (generate_predictions fs category store sd ed basePred rowPred noise).status = "success"
    ∨ (generate_predictions fs category store sd ed basePred rowPred noise).status
        = "error" := by
  rw [generate_predictions]
  cases hb : generatePredictionsBody fs category store sd ed basePred rowPred noise with
  | error msg => right; rfl
  | ok r =>
    left
    simp only [generatePredictionsBody] at hb
    split at hb
    · split at hb
      · split at hb
        · exact Except.noConfusion hb
        · injection hb with h
          rw [← h]
      · injection hb with h
        rw [← h]
    · exact Except.noConfusion hb

/-- C10: in the real-data branch (the preprocessed csv present, the model
loaded, and at least one feature available), the result is a success whose
predictions list has at most 20 entries, whose total_predictions equals
the length of that list, and all of whose confidences are at least 0.7. -/
theorem c10_real_branch_limits (fs : FS) (df : DataFrame)
    (category store : Option String) (sd ed : Option ℤ)
    (basePred : ℤ → ℚ) (rowPred : Row → ℚ) (noise : ℕ → ℚ)
    (hmodel : fs.lgbmModelExists = true ∨ fs.joblibModelExists = true)
    (hdf : fs.dataFile = some df)
    (havail : (availableFeatures (fs.featureNames.getD defaultFeatureNames) df).isEmpty
        = false) :
    (generate_predictions fs category store sd ed basePred rowPred noise).status = "success"
    ∧ ∃ pl, (generate_predictions fs category store sd ed basePred rowPred noise).payload
        = some pl
      ∧ pl.predictions.length ≤ 20
      ∧ pl.total_predictions = pl.predictions.length
      ∧ ∀ p ∈ pl.predictions, (7 / 10 : ℚ) ≤ p.confidence := by
  have hb : (fs.lgbmModelExists || fs.joblibModelExists) = true := by
    rcases hmodel with h | h <;> simp [h]
  have hres : generate_predictions fs category store sd ed basePred rowPred noise
      = { status := "success"
          message := "Predictions generated successfully"
          payload := some
            { predictions := realEntries df category store sd rowPred noise
                (filteredRows df category store)
              total_predictions := (realEntries df category store sd rowPred noise
                (filteredRows df category store)).length
              features_used := availableFeatures
                (fs.featureNames.getD defaultFeatureNames) df } } := by
    simp [generate_predictions, generatePredictionsBody, hb, hdf, havail]
  rw [hres]
  refine ⟨rfl, _, rfl, ?_, rfl, ?_⟩
  · simp only [realEntries, List.length_map, List.enum_length, List.length_take]
    exact min_le_left _ _
  · intro p hp
    rw [realEntries, List.mem_map] at hp
    rcases hp with ⟨q, _, rfl⟩
    exact le_max_left _ _

/-- Witness for C10 at a concrete file system whose data file has one row
and all modelled columns. -/
theorem c10_real_branch_limits_witness :
    (FS.mk true false none (some (DataFrame.mk true true true true []
        [Row.mk "r1" (some 738886) "CA_1" "HOBBIES"]))).lgbmModelExists = true
    ∧ (FS.mk true false none (some (DataFrame.mk true true true true []
        [Row.mk "r1" (some 738886) "CA_1" "HOBBIES"]))).dataFile
        = some (DataFrame.mk true true true true []
            [Row.mk "r1" (some 738886) "CA_1" "HOBBIES"])
    ∧ (availableFeatures
        ((FS.mk true false none (some (DataFrame.mk true true true true []
          [Row.mk "r1" (some 738886) "CA_1" "HOBBIES"]))).featureNames.getD
            defaultFeatureNames)
        (DataFrame.mk true true true true []
          [Row.mk "r1" (some 738886) "CA_1" "HOBBIES"])).isEmpty = false
    ∧ ((generate_predictions (FS.mk true false none (some (DataFrame.mk true true true true []
          [Row.mk "r1" (some 738886) "CA_1" "HOBBIES"]))) none none none none
          (fun _ => 0) (fun _ => 2) (fun _ => 0)).status = "success"
      ∧ ∃ pl, (generate_predictions (FS.mk true false none
            (some (DataFrame.mk true true true true []
              [Row.mk "r1" (some 738886) "CA_1" "HOBBIES"]))) none none none none
            (fun _ => 0) (fun _ => 2) (fun _ => 0)).payload = some pl
        ∧ pl.predictions.length ≤ 20
        ∧ pl.total_predictions = pl.predictions.length
        ∧ ∀ p ∈ pl.predictions, (7 / 10 : ℚ) ≤ p.confidence) :=
  ⟨rfl, rfl, by decide,
    c10_real_branch_limits (FS.mk true false none (some (DataFrame.mk true true true true []
        [Row.mk "r1" (some 738886) "CA_1" "HOBBIES"])))
      (DataFrame.mk true true true true [] [Row.mk "r1" (some 738886) "CA_1" "HOBBIES"])
      none none none none (fun _ => 0) (fun _ => 2) (fun _ => 0)
      (Or.inl rfl) rfl (by decide)⟩

end Spec2Proof
